import Mathlib

/-!
Shallow embedding of the particle simulation engine of this repository
(the `ParticleEngine` class of the services source file).

Modelling conventions:
* JavaScript `number`s are modelled as exact rationals `ℚ`.
* The transcendental functions of `Math` (`sin`, `cos`, `acos`, `sqrt`,
  `cbrt`, `pow`, `PI`) and the color conversions done by the external
  `THREE.Color` class are abstracted into a record `MathOps` of rational
  operations passed to every engine function.
* The global `Math.random()` stream is an explicit sequence `rand : ℕ → ℚ`
  consumed through an explicit call counter threaded through the code in
  source order; each entry point starts from a fresh stream, matching the
  fresh randomness of each call.
* The `Float32Array` buffers of triples become `List Point3D`; the
  `Int32Array` spatial-hash tables become functions `ℕ → ℤ` updated
  functionally (`-1` is the empty marker, as in the source).
* `MAX_PARTICLES` (25000 in the source) is generalised to the length of the
  buffers so that concrete instances stay evaluable; every theorem holds for
  any capacity, in particular 25000.
* A `Partial<ParticleConfig>` is modelled with `Option` fields: a property
  explicitly set to `undefined` is modelled as an absent property.
* `ShapeType`, `Point3D` and `ParticleConfig` come from the `types` module
  whose file is not among the sources; they are reconstructed from their
  uses in the engine (an enum of six shape tags, a record of three numbers,
  and the configuration record).
-/

/-- Modelled from the spec: the shape enum of the missing `types` module,
with exactly the six archetypes the engine dispatches on
(`Nebula, Heart, Sphere, Galaxy, Mobius, Custom`). -/
inductive ShapeType where
  | NEBULA
  | HEART
  | SPHERE
  | GALAXY
  | MOBIUS
  | CUSTOM
deriving DecidableEq, Repr

/-- Modelled from the spec: the 3-vector record of the missing `types`
module, used for positions, targets and custom shape points. -/
@[ext]
structure Point3D where
  x : ℚ
  y : ℚ
  z : ℚ
deriving DecidableEq, Repr

/-- Modelled from the spec: the configuration record of the missing `types`
module: density, spread, a color string (a hex color or the literal
"MULTICOLOR"), and the selected shape. -/
structure ParticleConfig where
  density : ℚ
  spread : ℚ
  color : String
  shape : ShapeType
deriving DecidableEq, Repr

/-- A `Partial<ParticleConfig>`: every property optional. -/
structure ConfigPatch where
  density : Option ℚ
  spread : Option ℚ
  color : Option String
  shape : Option ShapeType
deriving DecidableEq, Repr

/-- The abstracted `Math` operations and external `THREE.Color` conversions;
the engine is parametric in them. -/
structure MathOps where
  sqrt : ℚ → ℚ
  cbrt : ℚ → ℚ
  sin : ℚ → ℚ
  cos : ℚ → ℚ
  acos : ℚ → ℚ
  pow : ℚ → ℚ → ℚ
  pi : ℚ
  parseColor : String → Point3D
  hslToRgb : ℚ → Point3D

/-- The capacity constant of the source (`const MAX_PARTICLES = 25000`). -/
def MAX_PARTICLES : ℕ := 25000

/-- The zero vector, used as the (never observed) default of in-range
list reads. -/
def origin : Point3D := ⟨0, 0, 0⟩

/-- The sentinel coordinate `(9999, 9999, 9999)` written to hidden
particles' targets. -/
def sentinel : Point3D := ⟨9999, 9999, 9999⟩

namespace ParticleEngine

/-- The mutable state of a `ParticleEngine` instance: the three data
buffers, the configuration, the stored custom point cloud, the
scroll-momentum scalar, the two rotation angles (`particles.rotation.y` and
`bgStars.rotation.y`) and the lifecycle flag. -/
structure EngineState where
  positions : List Point3D
  targetPositions : List Point3D
  colors : List Point3D
  currentConfig : ParticleConfig
  customShapePoints : List Point3D
  scrollVelocity : ℚ
  particlesRotY : ℚ
  bgRotY : ℚ
  isDisposed : Bool
deriving DecidableEq, Repr

/-- `Math.floor(MAX_PARTICLES * density)`: the number of visible particles
(negative floors clamp to `0`, observationally identical to the source where
`i >= count` then holds for every `i`). -/
def activeCount (n : ℕ) (density : ℚ) : ℕ := (⌊(n : ℚ) * density⌋).toNat

/-- One particle's target sample, transcribed from the `switch (shape)` of
`updateTargetShape`; `k` is the `Math.random()` call counter, and the second
component is the counter after this sample. -/
def genPoint (ops : MathOps) (rand : ℕ → ℚ) (shape : ShapeType)
    (customShapePoints : List Point3D) (i k : ℕ) : Point3D × ℕ :=
  match shape with
  | ShapeType.SPHERE =>
    let r := 12 * ops.cbrt (rand k)
    let theta := rand (k + 1) * 2 * ops.pi
    let phi := ops.acos (2 * rand (k + 2) - 1)
    (⟨r * ops.sin phi * ops.cos theta,
      r * ops.sin phi * ops.sin theta,
      r * ops.cos phi⟩, k + 3)
  | ShapeType.HEART =>
    let t := rand k * ops.pi * 2
    let scaleH : ℚ := 9 / 10
    let hx := 16 * ops.pow (ops.sin t) 3
    let hy := 13 * ops.cos t - 5 * ops.cos (2 * t) - 2 * ops.cos (3 * t) - ops.cos (4 * t)
    let rVol := rand (k + 1)
    (⟨hx * scaleH * rVol, hy * scaleH * rVol, (rand (k + 2) - 1 / 2) * 10 * rVol⟩, k + 3)
  | ShapeType.GALAXY =>
    let spin : ℚ := 7 / 2
    let rGal := ops.pow (rand k) (7 / 10)
    let radius := rGal * 22
    let armIndex := i % 3
    let armAngle := ((armIndex : ℚ) / 3) * ops.pi * 2
    let angleBase := armAngle + rGal * spin
    let spreadArm := 3 / 10 + rGal * (8 / 10)
    let angleRandom := (rand (k + 1) - 1 / 2) * spreadArm
    let finalAngle := angleBase + angleRandom
    (⟨ops.cos finalAngle * radius, ops.sin finalAngle * radius,
      (rand (k + 2) - 1 / 2) * (6 * (1 - rGal * (7 / 10)))⟩, k + 3)
  | ShapeType.MOBIUS =>
    let uMob := rand k * ops.pi * 2
    let wMob := (rand (k + 1) - 1 / 2) * 6
    let scale : ℚ := 18
    let depthScale : ℚ := 4
    let xc := scale * ops.sin uMob
    let yc := scale * ops.sin uMob * ops.cos uMob
    let zc := depthScale * ops.cos uMob
    let tx := scale * ops.cos uMob
    let ty := scale * ops.cos (2 * uMob)
    let tz := -depthScale * ops.sin uMob
    let tLen := ops.sqrt (tx * tx + ty * ty + tz * tz)
    let ntx := tx / tLen
    let nty := ty / tLen
    let ntz := tz / tLen
    let nx0 := -nty
    let ny0 := ntx
    let nz0 : ℚ := 0
    let nLen := ops.sqrt (nx0 * nx0 + ny0 * ny0 + nz0 * nz0)
    let nx := nx0 / nLen
    let ny := ny0 / nLen
    let nz := nz0 / nLen
    let bnx := nty * nz - ntz * ny
    let bny := ntz * nx - ntx * nz
    let bnz := ntx * ny - nty * nx
    let twistAngle := uMob / 2
    let cosTwist := ops.cos twistAngle
    let sinTwist := ops.sin twistAngle
    let offX := nx * cosTwist + bnx * sinTwist
    let offY := ny * cosTwist + bny * sinTwist
    let offZ := nz * cosTwist + bnz * sinTwist
    let x0 := xc + wMob * offX
    let y0 := yc + wMob * offY
    let z0 := zc + wMob * offZ
    let thickness := (rand (k + 2) - 1 / 2) * (3 / 2)
    (⟨x0 + (rand (k + 3) - 1 / 2) * (1 / 2),
      y0 + (rand (k + 4) - 1 / 2) * (1 / 2),
      z0 + (rand (k + 5) - 1 / 2) * (1 / 2) + thickness⟩, k + 6)
  | ShapeType.CUSTOM =>
    match customShapePoints with
    | [] =>
      let rs : ℚ := 5
      (⟨(rand k - 1 / 2) * rs, (rand (k + 1) - 1 / 2) * rs, 0⟩, k + 2)
    | q0 :: qs =>
      let p := (q0 :: qs).getD (i % (q0 :: qs).length) origin
      (⟨p.x + (rand k - 1 / 2), p.y + (rand (k + 1) - 1 / 2),
        p.z + (rand (k + 2) - 1 / 2)⟩, k + 3)
  | ShapeType.NEBULA =>
    let _dist := rand k
    let angle := rand (k + 1) * ops.pi * 2
    let rad := if rand (k + 2) < 1 / 2 then rand (k + 3) * 5 else rand (k + 3) * 20
    (⟨ops.cos angle * rad, ops.sin angle * rad, (rand (k + 4) - 1 / 2) * 10⟩, k + 5)

/-- The number of `Math.random()` calls one visible sample of a given shape
consumes. -/
def drawCount (shape : ShapeType) (customShapePoints : List Point3D) : ℕ :=
  match shape with
  | ShapeType.SPHERE => 3
  | ShapeType.HEART => 3
  | ShapeType.GALAXY => 3
  | ShapeType.MOBIUS => 6
  | ShapeType.CUSTOM => match customShapePoints with | [] => 2 | _ :: _ => 3
  | ShapeType.NEBULA => 5

/-- The whole-buffer loop of `updateTargetShape`: index `i` running over
`n` remaining slots; slots at or past `count` get the sentinel, the others a
fresh sample of the current shape. -/
def buildTargets (ops : MathOps) (rand : ℕ → ℚ) (shape : ShapeType)
    (customShapePoints : List Point3D) (count : ℕ) : ℕ → ℕ → ℕ → List Point3D
  | 0, _, _ => []
  | n + 1, i, k =>
    if count ≤ i then
      sentinel :: buildTargets ops rand shape customShapePoints count n (i + 1) k
    else
      let g := genPoint ops rand shape customShapePoints i k
      g.1 :: buildTargets ops rand shape customShapePoints count n (i + 1) g.2

/-- `updateTargetShape`: regenerate the whole target buffer from the current
shape and density, starting at random counter `k`. -/
def updateTargetShape (ops : MathOps) (rand : ℕ → ℚ) (k : ℕ) (s : EngineState) : EngineState :=
  { s with targetPositions :=
      (buildTargets ops rand s.currentConfig.shape s.customShapePoints
        (activeCount s.targetPositions.length s.currentConfig.density)
        s.targetPositions.length 0 k) }

/-- `setCustomShape`: store the point cloud and regenerate immediately when
the current shape is `CUSTOM`.  The source has no `isDisposed` guard here. -/
def setCustomShape (ops : MathOps) (rand : ℕ → ℚ) (points : List Point3D)
    (s : EngineState) : EngineState :=
  let s1 := { s with customShapePoints := points }
  if s1.currentConfig.shape = ShapeType.CUSTOM then updateTargetShape ops rand 0 s1 else s1

/-- The object-spread merge `{ ...currentConfig, ...newConfig }`. -/
def mergeConfig (c : ParticleConfig) (p : ConfigPatch) : ParticleConfig :=
  ⟨p.density.getD c.density, p.spread.getD c.spread, p.color.getD c.color,
   p.shape.getD c.shape⟩

/-- The `if (newConfig.color)` block of `updateConfig`: repaint the whole
color buffer (the empty string is falsy in JavaScript, hence skipped); the
second component is the number of `Math.random()` calls consumed. -/
def applyColor (ops : MathOps) (rand : ℕ → ℚ) (p : ConfigPatch)
    (s : EngineState) : EngineState × ℕ :=
  match p.color with
  | none => (s, 0)
  | some c =>
    if c = "" then (s, 0)
    else if c = "MULTICOLOR" then
      ({ s with colors := (List.range s.colors.length).map (fun i => ops.hslToRgb (rand i)) },
       s.colors.length)
    else
      ({ s with colors := s.colors.map (fun _ => ops.parseColor c) }, 0)

/-- `updateConfig`: no-op when disposed; merge the patch; repaint colors if
the patch carries a (truthy) color; regenerate targets exactly when the
patch carries a `shape` or a `density` property. -/
def updateConfig (ops : MathOps) (rand : ℕ → ℚ) (p : ConfigPatch)
    (s : EngineState) : EngineState :=
  if s.isDisposed then s else
  let s1 := { s with currentConfig := mergeConfig s.currentConfig p }
  let ac := applyColor ops rand p s1
  if p.shape.isSome || p.density.isSome then updateTargetShape ops rand ac.2 ac.1 else ac.1

/-- `handleScroll`: ingest a wheel delta into the momentum scalar with
sensitivity `0.0005`, clamped at `0.3`. -/
def handleScroll (deltaY : ℚ) (s : EngineState) : EngineState :=
  if s.isDisposed then s else
  let v := s.scrollVelocity + |deltaY| * (5 / 10000)
  { s with scrollVelocity := if v > 3 / 10 then 3 / 10 else v }

/-- `dispose`: the in-memory effect is setting the terminal flag (resource
release is external). -/
def dispose (s : EngineState) : EngineState := { s with isDisposed := true }

/-- Reinterpret an integer as its unsigned 32-bit pattern, as JavaScript's
`ToInt32`-then-bitwise-xor does. -/
def toUInt32 (n : ℤ) : ℕ := (n % (4294967296 : ℤ)).toNat

/-- The grid cell size (`1.2` world units). -/
def cellSize : ℚ := 6 / 5

/-- The spatial-hash bucket of a position, transcribed from the source:
floor to cells, multiply by the three large primes, xor as 32-bit
integers, mask by `hashSize - 1 = 16383`. -/
def hashOf (p : Point3D) : ℕ :=
  let xi := ⌊p.x / cellSize⌋
  let yi := ⌊p.y / cellSize⌋
  let zi := ⌊p.z / cellSize⌋
  (toUInt32 (xi * 73856093) ^^^ toUInt32 (yi * 19349663) ^^^ toUInt32 (zi * 83492791)) &&& 16383

/-- The hash-build loop of `animate`: insert every particle whose x
coordinate is not past `8000` at the head of its bucket chain. -/
def insertLoop (positions : List Point3D) :
    ℕ → ℕ → (ℕ → ℤ) → (ℕ → ℤ) → (ℕ → ℤ) × (ℕ → ℤ)
  | 0, _, hashTable, nextEntry => (hashTable, nextEntry)
  | fuel + 1, i, hashTable, nextEntry =>
    let p := positions.getD i origin
    if p.x > 8000 then insertLoop positions fuel (i + 1) hashTable nextEntry
    else
      insertLoop positions fuel (i + 1)
        (Function.update hashTable (hashOf p) (i : ℤ))
        (Function.update nextEntry i (hashTable (hashOf p)))

/-- One neighbor check of the repulsion loop: push the evaluated particle
away when the squared distance is strictly inside `(1e-5, 0.7 * 0.7)`. -/
def repelStep (ops : MathOps) (cur q : Point3D) : Point3D :=
  let dx := cur.x - q.x
  let dy := cur.y - q.y
  let dz := cur.z - q.z
  let distSq := dx * dx + dy * dy + dz * dz
  let minDist : ℚ := 7 / 10
  if distSq < minDist * minDist ∧ distSq > 1 / 100000 then
    let dist := ops.sqrt distSq
    let pushStrength : ℚ := 3 / 20
    let force := (minDist - dist) / dist * pushStrength
    ⟨cur.x + dx * force, cur.y + dy * force, cur.z + dz * force⟩
  else cur

/-- The bounded chain traversal of the repulsion phase (`maxChecks = 10`
as the fuel); only the evaluated particle's coordinate `cur` is updated. -/
def chainLoop (ops : MathOps) (positions : List Point3D) (nextEntry : ℕ → ℤ)
    (i : ℕ) : ℕ → ℤ → Point3D → Point3D
  | 0, _, cur => cur
  | checks + 1, neighbor, cur =>
    if neighbor = -1 then cur
    else
      let cur' := if neighbor = (i : ℤ) then cur
        else repelStep ops cur (positions.getD neighbor.toNat origin)
      chainLoop ops positions nextEntry i checks (nextEntry neighbor.toNat) cur'

/-- The gesture blend of one visible particle: perturb the target radially
and with jitter when `openness > 0.1`, then first-order smooth the position
toward it; returns the new position and random counter. -/
def blendPhase (ops : MathOps) (rand : ℕ → ℚ) (k : ℕ)
    (openness explosionFactor cohesionSpeed noiseAmt : ℚ) (t p : Point3D) :
    Point3D × ℕ :=
  if openness > 1 / 10 then
    let dist := ops.sqrt (t.x * t.x + t.y * t.y + t.z * t.z) + 1 / 10
    let dirX := t.x / dist
    let dirY := t.y / dist
    let dirZ := t.z / dist
    let tx := t.x + dirX * explosionFactor + (rand k - 1 / 2) * noiseAmt
    let ty := t.y + dirY * explosionFactor + (rand (k + 1) - 1 / 2) * noiseAmt
    let tz := t.z + dirZ * explosionFactor + (rand (k + 2) - 1 / 2) * noiseAmt
    (⟨p.x + (tx - p.x) * cohesionSpeed,
      p.y + (ty - p.y) * cohesionSpeed,
      p.z + (tz - p.z) * cohesionSpeed⟩, k + 3)
  else
    (⟨p.x + (t.x - p.x) * cohesionSpeed,
      p.y + (t.y - p.y) * cohesionSpeed,
      p.z + (t.z - p.z) * cohesionSpeed⟩, k)

/-- The main per-particle loop of `animate`: hidden particles (target x past
`9000`) get their x coordinate snapped to `9999` and are skipped; visible
ones are blended toward the (possibly perturbed) target and then repelled
from their bucket chain, writing only slot `i` of the buffer. -/
def mainLoop (ops : MathOps) (rand : ℕ → ℚ) (hashTable nextEntry : ℕ → ℤ)
    (targets : List Point3D) (openness explosionFactor cohesionSpeed noiseAmt : ℚ) :
    ℕ → ℕ → ℕ → List Point3D → List Point3D
  | 0, _, _, ps => ps
  | fuel + 1, i, k, ps =>
    if (targets.getD i origin).x > 9000 then
      mainLoop ops rand hashTable nextEntry targets openness explosionFactor
        cohesionSpeed noiseAmt fuel (i + 1) k
        (ps.set i ⟨9999, (ps.getD i origin).y, (ps.getD i origin).z⟩)
    else
      let b := blendPhase ops rand k openness explosionFactor cohesionSpeed noiseAmt
        (targets.getD i origin) (ps.getD i origin)
      let ps1 := ps.set i b.1
      let p2 := chainLoop ops ps1 nextEntry i 10 (hashTable (hashOf b.1)) b.1
      mainLoop ops rand hashTable nextEntry targets openness explosionFactor
        cohesionSpeed noiseAmt fuel (i + 1) b.2 (ps1.set i p2)

/-- `animate(handOpenness)`: no-op when disposed; decay and snap the
momentum scalar, advance the two rotations, rebuild the spatial hash from
the pre-frame positions, then run the per-particle loop. -/
def animate (ops : MathOps) (rand : ℕ → ℚ) (handOpenness : ℚ)
    (s : EngineState) : EngineState :=
  if s.isDisposed then s else
  let v0 := s.scrollVelocity * (96 / 100)
  let v := if |v0| < 1 / 10000 then 0 else v0
  let currentSpeed := 1 / 500 + v
  let tables := insertLoop s.positions s.positions.length 0 (fun _ => -1) (fun _ => -1)
  let explosionFactor := handOpenness * 60 * s.currentConfig.spread
  let cohesionSpeed := 1 / 20 + (1 - handOpenness) * (1 / 10)
  let noiseAmt := handOpenness * (8 / 10)
  { s with
    scrollVelocity := v,
    particlesRotY := s.particlesRotY + currentSpeed,
    bgRotY := s.bgRotY - 3 / 10000,
    positions :=
      mainLoop ops rand tables.1 tables.2 s.targetPositions handOpenness
        explosionFactor cohesionSpeed noiseAmt s.positions.length 0 0 s.positions }

end ParticleEngine

/-- Follows the spec's words for the per-particle blend (§4.3 step 4): when
`openness > 0.1`, perturb the target by `dir * (openness * 60 * spread)`
with `dir = target / (‖target‖ + 0.1)` plus per-axis uniform jitter scaled
by `openness * 0.8`; then smooth the position toward the perturbed target
with `cohesionSpeed = 0.05 + (1 - openness) * 0.1`. -/
def specBlend (ops : MathOps) (rand : ℕ → ℚ) (k : ℕ) (openness spread : ℚ)
    (target pos : Point3D) : Point3D :=
  let cohesionSpeed := 1 / 20 + (1 - openness) * (1 / 10)
  let t' :=
    if openness > 1 / 10 then
      let dist :=
        ops.sqrt (target.x * target.x + target.y * target.y + target.z * target.z) + 1 / 10
      (⟨target.x + target.x / dist * (openness * 60 * spread)
          + (rand k - 1 / 2) * (openness * (8 / 10)),
        target.y + target.y / dist * (openness * 60 * spread)
          + (rand (k + 1) - 1 / 2) * (openness * (8 / 10)),
        target.z + target.z / dist * (openness * 60 * spread)
          + (rand (k + 2) - 1 / 2) * (openness * (8 / 10))⟩ : Point3D)
    else target
  ⟨pos.x + (t'.x - pos.x) * cohesionSpeed,
   pos.y + (t'.y - pos.y) * cohesionSpeed,
   pos.z + (t'.z - pos.z) * cohesionSpeed⟩

/-- Trivial instantiation of the abstract math operations, used to evaluate
the engine on concrete states (all claims proved about the engine hold for
every instantiation). -/
def trivOps : MathOps where
  sqrt := fun _ => 0
  cbrt := fun u => u
  sin := fun _ => 0
  cos := fun _ => 1
  acos := fun _ => 0
  pow := fun a _ => a
  pi := 0
  parseColor := fun _ => ⟨1, 1, 1⟩
  hslToRgb := fun _ => ⟨1, 0, 0⟩

/-- A concrete random stream: every draw is `1/2`. -/
def halfRand : ℕ → ℚ := fun _ => 1 / 2

/-- A disposed one-particle engine whose shape is `CUSTOM` (concrete
evaluation state). -/
def disposedCustomState : ParticleEngine.EngineState :=
  ⟨[origin], [⟨1, 1, 1⟩], [⟨1, 1, 1⟩], ⟨1, 1 / 2, "#00ffff", ShapeType.CUSTOM⟩,
   [], 0, 0, 0, true⟩

/-- A live one-particle engine whose single particle is hidden: its target
is the sentinel while its position is `(0, 5, 7)` (concrete evaluation
state). -/
def hiddenState : ParticleEngine.EngineState :=
  ⟨[⟨0, 5, 7⟩], [sentinel], [⟨1, 1, 1⟩], ⟨1, 1 / 2, "#00ffff", ShapeType.NEBULA⟩,
   [], 0, 0, 0, false⟩

/-- A live one-particle engine with shape `NEBULA` and a stale target buffer
(concrete evaluation state). -/
def nebulaState : ParticleEngine.EngineState :=
  ⟨[origin], [⟨1, 1, 1⟩], [⟨1, 1, 1⟩], ⟨1, 1 / 2, "#00ffff", ShapeType.NEBULA⟩,
   [], 0, 0, 0, false⟩

/-- A live two-particle engine with density `1/2` (concrete evaluation
state). -/
def halfDensityState : ParticleEngine.EngineState :=
  ⟨[origin, origin], [origin, origin], [⟨1, 1, 1⟩, ⟨1, 1, 1⟩],
   ⟨1 / 2, 1 / 2, "#00ffff", ShapeType.NEBULA⟩, [], 0, 0, 0, false⟩

/-- A live one-particle engine with shape `SPHERE` and density `1`
(concrete evaluation state). -/
def sphereState : ParticleEngine.EngineState :=
  ⟨[origin], [origin], [⟨1, 1, 1⟩], ⟨1, 1 / 2, "#00ffff", ShapeType.SPHERE⟩,
   [], 0, 0, 0, false⟩

namespace ParticleEngine

theorem getD_set_self {α : Type} (a d : α) :
    ∀ (l : List α) (i : ℕ), i < l.length → (l.set i a).getD i d = a := by
  intro l
  induction l with
  | nil => intro i h; simp at h
  | cons x xs ih =>
    intro i h
    cases i with
    | zero => rfl
    | succ n => exact ih n (by simpa using h)

theorem getD_set_ne {α : Type} (a d : α) :
    ∀ (l : List α) (i j : ℕ), i ≠ j → (l.set i a).getD j d = l.getD j d := by
  intro l
  induction l with
  | nil => intro i j _; simp
  | cons x xs ih =>
    intro i j hij
    cases i with
    | zero =>
      cases j with
      | zero => exact absurd rfl hij
      | succ m => rfl
    | succ n =>
      cases j with
      | zero => rfl
      | succ m => exact ih n m (fun h => hij (by rw [h]))

theorem genPoint_counter (ops : MathOps) (rand : ℕ → ℚ) (shape : ShapeType)
    (cu : List Point3D) (i k : ℕ) :
    (genPoint ops rand shape cu i k).2 = k + drawCount shape cu := by
  cases shape <;> cases cu <;> rfl

theorem buildTargets_length (ops : MathOps) (rand : ℕ → ℚ) (shape : ShapeType)
    (cu : List Point3D) (count : ℕ) :
    ∀ (n i k : ℕ), (buildTargets ops rand shape cu count n i k).length = n := by
  intro n
  induction n with
  | zero => intro i k; rfl
  | succ m ih =>
    intro i k
    rw [buildTargets]
    split
    · simpa using ih (i + 1) k
    · simpa using ih (i + 1) _

theorem buildTargets_getD_ge (ops : MathOps) (rand : ℕ → ℚ) (shape : ShapeType)
    (cu : List Point3D) (count : ℕ) (d : Point3D) :
    ∀ (n i k j : ℕ), j < n → count ≤ i + j →
      (buildTargets ops rand shape cu count n i k).getD j d = sentinel := by
  intro n
  induction n with
  | zero => intro i k j hj; omega
  | succ m ih =>
    intro i k j hj hc
    rw [buildTargets]
    split
    · cases j with
      | zero => rfl
      | succ jj => exact ih (i + 1) k jj (by omega) (by omega)
    · cases j with
      | zero => omega
      | succ jj => exact ih (i + 1) _ jj (by omega) (by omega)

theorem buildTargets_getD_lt (ops : MathOps) (rand : ℕ → ℚ) (shape : ShapeType)
    (cu : List Point3D) (count : ℕ) (d : Point3D) :
    ∀ (n i k j : ℕ), j < n → i + j < count →
      (buildTargets ops rand shape cu count n i k).getD j d =
        (genPoint ops rand shape cu (i + j) (k + j * drawCount shape cu)).1 := by
  intro n
  induction n with
  | zero => intro i k j hj; omega
  | succ m ih =>
    intro i k j hj hc
    rw [buildTargets]
    split
    · omega
    · cases j with
      | zero => simp
      | succ jj =>
        show (buildTargets ops rand shape cu count m (i + 1)
            (genPoint ops rand shape cu i k).2).getD jj d = _
        rw [genPoint_counter]
        have step := ih (i + 1) (k + drawCount shape cu) jj (by omega) (by omega)
        have harith : k + drawCount shape cu + jj * drawCount shape cu =
            k + (jj + 1) * drawCount shape cu := by ring
        have hidx : i + 1 + jj = i + (jj + 1) := by omega
        rw [harith, hidx] at step
        simpa using step

end ParticleEngine

namespace ParticleEngine

section MainLoopLemmas

variable (ops : MathOps) (rand : ℕ → ℚ) (ht ne : ℕ → ℤ) (targets : List Point3D)
variable (openness ef cs na : ℚ)

theorem mainLoop_getD_lo :
    ∀ (fuel i k : ℕ) (ps : List Point3D) (j : ℕ) (d : Point3D), j < i →
      (mainLoop ops rand ht ne targets openness ef cs na fuel i k ps).getD j d =
        ps.getD j d := by
  intro fuel
  induction fuel with
  | zero => intro i k ps j d _; rfl
  | succ m ih =>
    intro i k ps j d hj
    rw [mainLoop]
    split
    · rw [ih (i + 1) k _ j d (by omega), getD_set_ne _ _ _ _ _ (by omega)]
    · dsimp only
      rw [ih (i + 1) _ _ j d (by omega), getD_set_ne _ _ _ _ _ (by omega),
        getD_set_ne _ _ _ _ _ (by omega)]

theorem mainLoop_length :
    ∀ (fuel i k : ℕ) (ps : List Point3D),
      (mainLoop ops rand ht ne targets openness ef cs na fuel i k ps).length =
        ps.length := by
  intro fuel
  induction fuel with
  | zero => intro i k ps; rfl
  | succ m ih =>
    intro i k ps
    rw [mainLoop]
    split
    · rw [ih (i + 1) k _]; simp
    · dsimp only
      rw [ih (i + 1) _ _]; simp

theorem mainLoop_hidden :
    ∀ (fuel i k : ℕ) (ps : List Point3D) (j : ℕ) (d : Point3D), j < fuel →
      i + j < ps.length →
      (targets.getD (i + j) origin).x > 9000 →
      (mainLoop ops rand ht ne targets openness ef cs na fuel i k ps).getD (i + j) d =
        ⟨9999, (ps.getD (i + j) origin).y, (ps.getD (i + j) origin).z⟩ := by
  intro fuel
  induction fuel with
  | zero => intro i k ps j d hj; omega
  | succ m ih =>
    intro i k ps j d hj hlen htx
    rw [mainLoop]
    cases j with
    | zero =>
      simp only [Nat.add_zero] at htx hlen ⊢
      rw [if_pos htx]
      rw [mainLoop_getD_lo ops rand ht ne targets openness ef cs na m (i + 1) k _ i d
        (by omega)]
      rw [getD_set_self _ _ _ _ hlen]
    | succ jj =>
      have hidx : i + (jj + 1) = i + 1 + jj := by omega
      rw [hidx] at htx hlen ⊢
      split
      · rw [ih (i + 1) k _ jj d (by omega) (by simpa using hlen) htx]
        rw [getD_set_ne _ _ _ _ _ (by omega)]
      · dsimp only
        rw [ih (i + 1) _ _ jj d (by omega) (by simpa using hlen) htx]
        rw [getD_set_ne _ _ _ _ _ (by omega), getD_set_ne _ _ _ _ _ (by omega)]

end MainLoopLemmas

end ParticleEngine

namespace ParticleEngine

set_option maxRecDepth 8000

/-- C1: the claim says every mutating operation is a no-op once disposed,
and the spec calls the disposed check at the top of every mutating entry
point a required invariant; but the source's `setCustomShape` lacks the
check, so on a disposed engine with shape `CUSTOM` it regenerates the
target buffer.  This theorem evaluates the code at that failing input. -/
theorem setCustomShape_after_dispose_mutates :
    disposedCustomState.isDisposed = true ∧
    (setCustomShape trivOps halfRand [⟨5, 5, 5⟩] disposedCustomState).targetPositions ≠
      disposedCustomState.targetPositions :=
  ⟨rfl, of_decide_eq_true (by with_unfolding_all rfl)⟩

/-- C2 counterexample: a hidden particle at position `(0, 5, 7)` with
sentinel target is not snapped to the full sentinel coordinate by one
`animate` step — only the x component becomes `9999`. -/
theorem hidden_snap_cex :
    hiddenState.targetPositions.getD 0 origin = sentinel ∧
    (animate trivOps halfRand 0 hiddenState).positions.getD 0 origin ≠ sentinel :=
  ⟨by decide, by decide⟩

/-- C2 (amended): for a hidden particle (target x past `9000`), one
`animate` step sets the particle's x coordinate to `9999` and leaves its y
and z coordinates unchanged; the particle is skipped by the blend and
repulsion phases. -/
theorem animate_hidden_snaps_x (ops : MathOps) (rand : ℕ → ℚ) (openness : ℚ)
    (s : EngineState) (j : ℕ) (d : Point3D)
    (hd : s.isDisposed = false)
    (hj : j < s.positions.length)
    (htx : (s.targetPositions.getD j origin).x > 9000) :
    (animate ops rand openness s).positions.getD j d =
      ⟨9999, (s.positions.getD j origin).y, (s.positions.getD j origin).z⟩ := by
  rw [animate, if_neg (by simp [hd])]
  dsimp only
  simpa using mainLoop_hidden ops rand _ _ s.targetPositions openness _ _ _
    s.positions.length 0 0 s.positions j d hj (by simpa using hj) (by simpa using htx)

/-- C2 witness: the amended theorem applied to the concrete hidden
particle. -/
theorem animate_hidden_snaps_x_witness :
    (animate trivOps halfRand 0 hiddenState).positions.getD 0 origin =
      ⟨9999, (hiddenState.positions.getD 0 origin).y,
        (hiddenState.positions.getD 0 origin).z⟩ :=
  animate_hidden_snaps_x trivOps halfRand 0 hiddenState 0 origin rfl (by decide)
    (of_decide_eq_true (by with_unfolding_all rfl))

/-- C10: an `animate` step leaves the target buffer, the color buffer, the
configuration and the stored custom point cloud unchanged (it mutates only
the position buffer and the rotation/momentum scalars). -/
theorem animate_mutates_only_positions (ops : MathOps) (rand : ℕ → ℚ)
    (openness : ℚ) (s : EngineState) :
    (animate ops rand openness s).targetPositions = s.targetPositions ∧
    (animate ops rand openness s).colors = s.colors ∧
    (animate ops rand openness s).currentConfig = s.currentConfig ∧
    (animate ops rand openness s).customShapePoints = s.customShapePoints := by
  rw [animate]
  split
  · exact ⟨rfl, rfl, rfl, rfl⟩
  · exact ⟨rfl, rfl, rfl, rfl⟩

/-- C7: each `animate` step multiplies the momentum by `0.96` and snaps it
to `0` below `1e-4`; each scroll impulse adds `|delta| * 0.0005` clamped at
`0.3`, so after an impulse the momentum never exceeds `0.3`. -/
theorem scrollVelocity_dynamics (ops : MathOps) (rand : ℕ → ℚ)
    (openness deltaY : ℚ) (s : EngineState) (hd : s.isDisposed = false) :
    (animate ops rand openness s).scrollVelocity =
      (if |s.scrollVelocity * (96 / 100)| < 1 / 10000 then 0
       else s.scrollVelocity * (96 / 100)) ∧
    (handleScroll deltaY s).scrollVelocity =
      min (s.scrollVelocity + |deltaY| * (5 / 10000)) (3 / 10) ∧
    (handleScroll deltaY s).scrollVelocity ≤ 3 / 10 := by
  have h2 : (handleScroll deltaY s).scrollVelocity =
      min (s.scrollVelocity + |deltaY| * (5 / 10000)) (3 / 10) := by
    rw [handleScroll, if_neg (by simp [hd])]
    dsimp only
    rcases le_or_lt (s.scrollVelocity + |deltaY| * (5 / 10000)) (3 / 10) with h | h
    · rw [if_neg (not_lt.mpr h), min_eq_left h]
    · rw [if_pos h, min_eq_right h.le]
  refine ⟨?_, h2, ?_⟩
  · rw [animate, if_neg (by simp [hd])]
  · rw [h2]
    exact min_le_right _ _

/-- C7 witness: the dynamics theorem applied to a concrete live engine and
impulse. -/
theorem scrollVelocity_dynamics_witness :
    (handleScroll 100 nebulaState).scrollVelocity ≤ 3 / 10 :=
  (scrollVelocity_dynamics trivOps halfRand 0 100 nebulaState rfl).2.2

end ParticleEngine

namespace ParticleEngine

set_option maxRecDepth 8000

/-- C3 counterexample: an `updateConfig` whose patch sets `shape` to the
value it already has (so the shape and density settings do not change)
still regenerates the target buffer. -/
theorem updateConfig_same_shape_regenerates :
    mergeConfig nebulaState.currentConfig ⟨none, none, none, some ShapeType.NEBULA⟩ =
      nebulaState.currentConfig ∧
    (updateConfig trivOps halfRand ⟨none, none, none, some ShapeType.NEBULA⟩
        nebulaState).targetPositions ≠ nebulaState.targetPositions :=
  ⟨rfl, of_decide_eq_true (by with_unfolding_all rfl)⟩

/-- C3 (amended): `updateConfig` regenerates the target buffer exactly when
the patch carries a `shape` or a `density` property (regardless of whether
the carried value differs from the current one), and leaves it unchanged
when the patch touches only `spread` or `color`. -/
theorem updateConfig_regen_iff_key_present (ops : MathOps) (rand : ℕ → ℚ)
    (p : ConfigPatch) (s : EngineState) (hd : s.isDisposed = false) :
    (p.shape = none → p.density = none →
      (updateConfig ops rand p s).targetPositions = s.targetPositions) ∧
    (p.shape.isSome = true ∨ p.density.isSome = true →
      (updateConfig ops rand p s).targetPositions =
        buildTargets ops rand (p.shape.getD s.currentConfig.shape) s.customShapePoints
          (activeCount s.targetPositions.length (p.density.getD s.currentConfig.density))
          s.targetPositions.length 0
          (if p.color = some "MULTICOLOR" then s.colors.length else 0)) := by
  constructor
  · intro hs hdn
    rw [updateConfig, if_neg (by simp [hd])]
    dsimp only
    rw [hs, hdn]
    simp only [Option.isSome_none, Bool.or_self, Bool.false_eq_true, if_false]
    rcases hc : p.color with _ | c
    · simp [applyColor, hc]
    · simp only [applyColor, hc]
      split
      · rfl
      · split
        · rfl
        · rfl
  · intro hor
    rw [updateConfig, if_neg (by simp [hd])]
    dsimp only
    have hcond : (p.shape.isSome || p.density.isSome) = true := by
      rcases hor with h | h <;> simp [h]
    rw [if_pos hcond]
    rcases hc : p.color with _ | c
    · simp [applyColor, hc, updateTargetShape, mergeConfig]
    · simp only [applyColor, hc]
      split
      · simp_all [updateTargetShape, mergeConfig]
      · split
        · simp_all [updateTargetShape, mergeConfig]
        · simp_all [updateTargetShape, mergeConfig]

/-- C3 witness: a spread-only patch leaves the target buffer untouched. -/
theorem updateConfig_regen_iff_key_present_witness :
    (updateConfig trivOps halfRand ⟨none, some 1, none, none⟩
      nebulaState).targetPositions = nebulaState.targetPositions :=
  (updateConfig_regen_iff_key_present trivOps halfRand
    ⟨none, some 1, none, none⟩ nebulaState rfl).1 rfl rfl

end ParticleEngine

namespace ParticleEngine

set_option maxRecDepth 8000

/-- C4: after any regeneration, the visible count is
`floor(capacity * density)`, every index at or past it holds the sentinel,
and every index below it holds the sample the current shape's generator
produced for that index (at the exact random-counter offset the source's
sequential `Math.random()` calls reach). -/
theorem regen_active_sentinel (ops : MathOps) (rand : ℕ → ℚ) (k : ℕ)
    (s : EngineState) (h0 : 0 < s.currentConfig.density)
    (h1 : s.currentConfig.density ≤ 1) :
    activeCount s.targetPositions.length s.currentConfig.density =
      (⌊(s.targetPositions.length : ℚ) * s.currentConfig.density⌋).toNat ∧
    (updateTargetShape ops rand k s).targetPositions.length =
      s.targetPositions.length ∧
    (∀ j, j < s.targetPositions.length →
      activeCount s.targetPositions.length s.currentConfig.density ≤ j →
      (updateTargetShape ops rand k s).targetPositions.getD j origin = sentinel) ∧
    (∀ j, j < activeCount s.targetPositions.length s.currentConfig.density →
      j < s.targetPositions.length →
      (updateTargetShape ops rand k s).targetPositions.getD j origin =
        (genPoint ops rand s.currentConfig.shape s.customShapePoints j
          (k + j * drawCount s.currentConfig.shape s.customShapePoints)).1) := by
  refine ⟨rfl, ?_, ?_, ?_⟩
  · rw [updateTargetShape]
    exact buildTargets_length ops rand _ _ _ _ 0 k
  · intro j hj hcj
    rw [updateTargetShape]
    dsimp only
    exact buildTargets_getD_ge ops rand _ _ _ origin _ 0 k j hj (by simpa using hcj)
  · intro j hjc hjn
    rw [updateTargetShape]
    dsimp only
    simpa using buildTargets_getD_lt ops rand _ _ _ origin _ 0 k j hjn (by simpa using hjc)

/-- C4 witness: in a two-particle engine with density `1/2`, the index at
`activeCount = 1` is the sentinel after regeneration. -/
theorem regen_active_sentinel_witness :
    (updateTargetShape trivOps halfRand 0 halfDensityState).targetPositions.getD 1
      origin = sentinel :=
  (regen_active_sentinel trivOps halfRand 0 halfDensityState
      (of_decide_eq_true (by with_unfolding_all rfl))
      (of_decide_eq_true (by with_unfolding_all rfl))).2.2.1 1
    (by decide) (of_decide_eq_true (by with_unfolding_all rfl))

/-- C5: the per-particle blend of `animate` — with the hoisted constants
`explosionFactor = openness * 60 * spread`,
`cohesionSpeed = 0.05 + (1 - openness) * 0.1` and
`noiseAmt = openness * 0.8` — coincides with the spec's formulas: radial
perturbation by `dir * (openness * 60 * spread)` with
`dir = target / (norm + 0.1)` plus per-axis jitter scaled by
`openness * 0.8` when `openness > 0.1`, no perturbation otherwise, then
first-order smoothing by `cohesionSpeed`. -/
theorem blend_matches_spec (ops : MathOps) (rand : ℕ → ℚ) (k : ℕ)
    (openness spread : ℚ) (t p : Point3D) :
    (blendPhase ops rand k openness (openness * 60 * spread)
      (1 / 20 + (1 - openness) * (1 / 10)) (openness * (8 / 10)) t p).1 =
    specBlend ops rand k openness spread t p := by
  by_cases h : openness > 1 / 10
  · simp only [blendPhase, specBlend, if_pos h]
  · simp only [blendPhase, specBlend, if_neg h]

/-- C6: the repulsion step never displaces the evaluated particle when the
squared distance to the enumerated neighbor is at least `0.7 * 0.7` (or
within the coincidence guard `1e-5`), and inside the open band it displaces
it by exactly `(dx, dy, dz) * (0.7 - dist) / dist * 0.15`, touching only
the evaluated particle (the step returns only the new coordinate of the
evaluated particle; the neighbor's slot is never written). -/
theorem repulsion_guard (ops : MathOps) (cur q : Point3D) :
    (((7 : ℚ) / 10) * (7 / 10) ≤
        (cur.x - q.x) * (cur.x - q.x) + (cur.y - q.y) * (cur.y - q.y) +
          (cur.z - q.z) * (cur.z - q.z) ∨
      (cur.x - q.x) * (cur.x - q.x) + (cur.y - q.y) * (cur.y - q.y) +
          (cur.z - q.z) * (cur.z - q.z) ≤ 1 / 100000 →
      repelStep ops cur q = cur) ∧
    ((cur.x - q.x) * (cur.x - q.x) + (cur.y - q.y) * (cur.y - q.y) +
        (cur.z - q.z) * (cur.z - q.z) < ((7 : ℚ) / 10) * (7 / 10) →
      (1 : ℚ) / 100000 <
        (cur.x - q.x) * (cur.x - q.x) + (cur.y - q.y) * (cur.y - q.y) +
          (cur.z - q.z) * (cur.z - q.z) →
      repelStep ops cur q =
        ⟨cur.x + (cur.x - q.x) *
            ((7 / 10 -
              ops.sqrt ((cur.x - q.x) * (cur.x - q.x) + (cur.y - q.y) * (cur.y - q.y) +
                (cur.z - q.z) * (cur.z - q.z))) /
              ops.sqrt ((cur.x - q.x) * (cur.x - q.x) + (cur.y - q.y) * (cur.y - q.y) +
                (cur.z - q.z) * (cur.z - q.z)) * (3 / 20)),
          cur.y + (cur.y - q.y) *
            ((7 / 10 -
              ops.sqrt ((cur.x - q.x) * (cur.x - q.x) + (cur.y - q.y) * (cur.y - q.y) +
                (cur.z - q.z) * (cur.z - q.z))) /
              ops.sqrt ((cur.x - q.x) * (cur.x - q.x) + (cur.y - q.y) * (cur.y - q.y) +
                (cur.z - q.z) * (cur.z - q.z)) * (3 / 20)),
          cur.z + (cur.z - q.z) *
            ((7 / 10 -
              ops.sqrt ((cur.x - q.x) * (cur.x - q.x) + (cur.y - q.y) * (cur.y - q.y) +
                (cur.z - q.z) * (cur.z - q.z))) /
              ops.sqrt ((cur.x - q.x) * (cur.x - q.x) + (cur.y - q.y) * (cur.y - q.y) +
                (cur.z - q.z) * (cur.z - q.z)) * (3 / 20))⟩) := by
  constructor
  · intro h
    rw [repelStep]
    dsimp only
    rw [if_neg]
    rintro ⟨hlt, hgt⟩
    rcases h with h | h
    · exact absurd hlt (not_lt.mpr h)
    · exact absurd hgt (not_lt.mpr h)
  · intro h1 h2
    rw [repelStep]
    dsimp only
    rw [if_pos ⟨h1, h2⟩]

/-- C6 witness: two particles at distance `1` are not pushed. -/
theorem repulsion_guard_witness :
    repelStep trivOps ⟨1, 0, 0⟩ ⟨0, 0, 0⟩ = ⟨1, 0, 0⟩ :=
  (repulsion_guard trivOps ⟨1, 0, 0⟩ ⟨0, 0, 0⟩).1
    (Or.inl (of_decide_eq_true (by with_unfolding_all rfl)))

end ParticleEngine

namespace ParticleEngine

set_option maxRecDepth 8000

/-- C8: the `CUSTOM` generator falls back to the flat cluster
`((u - 0.5) * 5, (u - 0.5) * 5, 0)` on an empty point sequence (so no index
is ever taken into the empty list), and on a non-empty sequence of length
`len` it yields point `i mod len` (a valid index) plus per-axis jitter of
magnitude at most `0.5` whenever the random draws lie in `[0, 1]`. -/
theorem custom_shape_fallback_and_cycle (ops : MathOps) (rand : ℕ → ℚ)
    (i k : ℕ) (ps : List Point3D) (hr : ∀ m, 0 ≤ rand m ∧ rand m ≤ 1) :
    (genPoint ops rand ShapeType.CUSTOM [] i k).1 =
      ⟨(rand k - 1 / 2) * 5, (rand (k + 1) - 1 / 2) * 5, 0⟩ ∧
    (ps ≠ [] →
      i % ps.length < ps.length ∧
      (genPoint ops rand ShapeType.CUSTOM ps i k).1 =
        ⟨(ps.getD (i % ps.length) origin).x + (rand k - 1 / 2),
         (ps.getD (i % ps.length) origin).y + (rand (k + 1) - 1 / 2),
         (ps.getD (i % ps.length) origin).z + (rand (k + 2) - 1 / 2)⟩ ∧
      |rand k - 1 / 2| ≤ 1 / 2 ∧ |rand (k + 1) - 1 / 2| ≤ 1 / 2 ∧
        |rand (k + 2) - 1 / 2| ≤ 1 / 2) := by
  have hbound : ∀ m, |rand m - 1 / 2| ≤ 1 / 2 := by
    intro m
    rw [abs_le]
    constructor
    · linarith [(hr m).1]
    · linarith [(hr m).2]
  constructor
  · rfl
  · intro hne
    cases ps with
    | nil => exact absurd rfl hne
    | cons q0 qs =>
      exact ⟨Nat.mod_lt _ (by simp), rfl, hbound k, hbound (k + 1), hbound (k + 2)⟩

/-- C8 witness: the theorem applied to the constant-`1/2` stream and a
concrete point list. -/
theorem custom_shape_fallback_and_cycle_witness :
    (genPoint trivOps halfRand ShapeType.CUSTOM [] 0 0).1 =
      ⟨(halfRand 0 - 1 / 2) * 5, (halfRand (0 + 1) - 1 / 2) * 5, 0⟩ :=
  (custom_shape_fallback_and_cycle trivOps halfRand 0 0 [⟨2, 3, 4⟩]
    (fun _ => ⟨of_decide_eq_true (by with_unfolding_all rfl),
      of_decide_eq_true (by with_unfolding_all rfl)⟩)).1

/-- Helper for C9: the squared norm of one sphere sample is at most `144`
whenever the math operations satisfy the circle identity, the cube root
maps `[0, 1]` into `[0, 1]`, and the random draws lie in `[0, 1]`. -/
theorem genPoint_sphere_normSq_le (ops : MathOps) (rand : ℕ → ℚ)
    (cu : List Point3D) (i k : ℕ)
    (hsc : ∀ a, ops.sin a ^ 2 + ops.cos a ^ 2 = 1)
    (hcb : ∀ u, 0 ≤ u → u ≤ 1 → 0 ≤ ops.cbrt u ∧ ops.cbrt u ≤ 1)
    (hr : ∀ m, 0 ≤ rand m ∧ rand m ≤ 1) :
    (genPoint ops rand ShapeType.SPHERE cu i k).1.x ^ 2 +
      (genPoint ops rand ShapeType.SPHERE cu i k).1.y ^ 2 +
      (genPoint ops rand ShapeType.SPHERE cu i k).1.z ^ 2 ≤ 144 := by
  obtain ⟨hc0, hc1⟩ := hcb (rand k) (hr k).1 (hr k).2
  have hx : (genPoint ops rand ShapeType.SPHERE cu i k).1.x =
      12 * ops.cbrt (rand k) * ops.sin (ops.acos (2 * rand (k + 2) - 1)) *
        ops.cos (rand (k + 1) * 2 * ops.pi) := rfl
  have hy : (genPoint ops rand ShapeType.SPHERE cu i k).1.y =
      12 * ops.cbrt (rand k) * ops.sin (ops.acos (2 * rand (k + 2) - 1)) *
        ops.sin (rand (k + 1) * 2 * ops.pi) := rfl
  have hz : (genPoint ops rand ShapeType.SPHERE cu i k).1.z =
      12 * ops.cbrt (rand k) * ops.cos (ops.acos (2 * rand (k + 2) - 1)) := rfl
  rw [hx, hy, hz]
  have key : (12 * ops.cbrt (rand k) * ops.sin (ops.acos (2 * rand (k + 2) - 1)) *
        ops.cos (rand (k + 1) * 2 * ops.pi)) ^ 2 +
      (12 * ops.cbrt (rand k) * ops.sin (ops.acos (2 * rand (k + 2) - 1)) *
        ops.sin (rand (k + 1) * 2 * ops.pi)) ^ 2 +
      (12 * ops.cbrt (rand k) * ops.cos (ops.acos (2 * rand (k + 2) - 1))) ^ 2 =
      144 * ops.cbrt (rand k) ^ 2 *
        (ops.sin (ops.acos (2 * rand (k + 2) - 1)) ^ 2 *
          (ops.sin (rand (k + 1) * 2 * ops.pi) ^ 2 +
            ops.cos (rand (k + 1) * 2 * ops.pi) ^ 2) +
          ops.cos (ops.acos (2 * rand (k + 2) - 1)) ^ 2) := by ring
  rw [key, hsc (rand (k + 1) * 2 * ops.pi), mul_one, hsc (ops.acos (2 * rand (k + 2) - 1))]
  nlinarith [hc0, hc1]

/-- C9: after regenerating targets with shape `SPHERE`, every visible
particle's target has squared norm at most `144 = 12 ^ 2`, for any random
stream drawing in `[0, 1]` and any math operations satisfying the circle
identity and a cube root mapping `[0, 1]` into itself. -/
theorem sphere_regen_within_radius (ops : MathOps) (rand : ℕ → ℚ) (k : ℕ)
    (s : EngineState) (j : ℕ)
    (hsh : s.currentConfig.shape = ShapeType.SPHERE)
    (hsc : ∀ a, ops.sin a ^ 2 + ops.cos a ^ 2 = 1)
    (hcb : ∀ u, 0 ≤ u → u ≤ 1 → 0 ≤ ops.cbrt u ∧ ops.cbrt u ≤ 1)
    (hr : ∀ m, 0 ≤ rand m ∧ rand m ≤ 1)
    (hjc : j < activeCount s.targetPositions.length s.currentConfig.density)
    (hjn : j < s.targetPositions.length) :
    ((updateTargetShape ops rand k s).targetPositions.getD j origin).x ^ 2 +
      ((updateTargetShape ops rand k s).targetPositions.getD j origin).y ^ 2 +
      ((updateTargetShape ops rand k s).targetPositions.getD j origin).z ^ 2 ≤ 144 := by
  have hget := buildTargets_getD_lt ops rand s.currentConfig.shape s.customShapePoints
    (activeCount s.targetPositions.length s.currentConfig.density) origin
    s.targetPositions.length 0 k j hjn (by simpa using hjc)
  rw [updateTargetShape]
  dsimp only
  rw [hget]
  rw [hsh]
  simpa using genPoint_sphere_normSq_le ops rand s.customShapePoints j
    (k + j * drawCount ShapeType.SPHERE s.customShapePoints) hsc hcb hr

/-- C9 witness: the theorem applied to a concrete one-particle sphere
engine with identity cube root and the constant-`1/2` stream. -/
theorem sphere_regen_within_radius_witness :
    ((updateTargetShape trivOps halfRand 0 sphereState).targetPositions.getD 0
        origin).x ^ 2 +
      ((updateTargetShape trivOps halfRand 0 sphereState).targetPositions.getD 0
        origin).y ^ 2 +
      ((updateTargetShape trivOps halfRand 0 sphereState).targetPositions.getD 0
        origin).z ^ 2 ≤ 144 :=
  sphere_regen_within_radius trivOps halfRand 0 sphereState 0 rfl
    (fun _ => of_decide_eq_true (by with_unfolding_all rfl))
    (fun _ h0 h1 => ⟨h0, h1⟩)
    (fun _ => ⟨of_decide_eq_true (by with_unfolding_all rfl),
      of_decide_eq_true (by with_unfolding_all rfl)⟩)
    (of_decide_eq_true (by with_unfolding_all rfl))
    (by decide)

end ParticleEngine
